import Mathlib

/-!
Verification of the connection-lifecycle manager, webhook dispatcher and
rate-limit middleware of a WhatsApp panel backend.

The definitions below are a shallow embedding of the JavaScript sources:

* `src/services/baileys.service.js` — per-instance session lifecycle
  (`connectInstance`, `forceDisconnect`, `handleQRCode`,
  `handleConnectionClose`, `attemptReconnect`, `formatPhoneToJID`,
  `sendTextMessage`);
* `src/services/webhook.service.js` — `createSignature`, `deliverWebhook`,
  `updateDeliveryStats`;
* the rate-limit middleware — `apiKeyRateLimit`, `subscriptionRateLimit`,
  `recordApiCall`.

The service keeps several `Map`s keyed by instance id (`instances`,
`connectionStates`, `reconnectAttempts`, `qrAttempts`, `manualDisconnects`,
`qrCodes`, `instanceConfigs`).  All claims are per-instance, so the state is
modelled as one record `Inst` holding that instance's entry of each map
(`Option` encodes map-entry presence; `manualDisconnect` is a `Bool` because
the code only ever stores `true` and reads the entry as truthy).  The
persisted `Instance` row is reduced to the fields the core mutates:
`dbStatus` and `dbLastError`.  Protocol-client sockets are opaque handles
(`Nat`); opening a socket (`makeWASocket`) is visible as a `ConnectResult`.
-/

namespace WAPanel

/-- `INSTANCE_STATUS` values from `utils/constants.js` used by the service
(`INIT`, `QR_REQUIRED`, `CONNECTED`, `DISCONNECTED`, `RECONNECTING`,
`CONNECTING`, `ERROR`), plus the raw string `"FORCE_DISCONNECTED"` which
`forceDisconnect` stores in the same `connectionStates` map. -/
inductive InstanceStatus where
  | INIT
  | QR_REQUIRED
  | CONNECTED
  | DISCONNECTED
  | RECONNECTING
  | CONNECTING
  | ERROR
  | FORCE_DISCONNECTED
deriving DecidableEq, Repr

/-- Entry of the `qrCodes` map: the raw QR string and the attempt number it
was generated on (expiry is not needed by any claim). -/
structure QRData where
  qr : String
  attempt : Nat
deriving DecidableEq, Repr

/-- Per-instance slice of the `BaileysService` maps together with the
persisted status fields of the `Instance` row. -/
structure Inst where
  /-- `instances` map entry: the live socket handle, if any. -/
  socket : Option Nat
  /-- `connectionStates` map entry. -/
  connState : Option InstanceStatus
  /-- `reconnectAttempts` map entry. -/
  reconnectAttempts : Option Nat
  /-- `qrAttempts` map entry. -/
  qrAttempts : Option Nat
  /-- `manualDisconnects` map entry (`true` iff present). -/
  manualDisconnect : Bool
  /-- `instanceConfigs` map entry (`true` iff `createInstance` registered one). -/
  hasConfig : Bool
  /-- `qrCodes` map entry. -/
  qrCode : Option QRData
  /-- persisted `Instance.status`. -/
  dbStatus : InstanceStatus
  /-- persisted `Instance.lastError`. -/
  dbLastError : Option String
deriving DecidableEq, Repr

/-- `this.maxReconnectAttempts = 5`. -/
def maxReconnectAttempts : Nat := 5

/-- `this.maxQRAttempts = 3`. -/
def maxQRAttempts : Nat := 3

/-- `this.reconnectDelay = 5000` (milliseconds). -/
def reconnectDelay : Nat := 5000

/-- Baileys `DisconnectReason.loggedOut`. -/
def disconnectReasonLoggedOut : Nat := 401

/-- Baileys `DisconnectReason.timedOut`. -/
def disconnectReasonTimedOut : Nat := 408

/-- `updateInstanceStatus(instanceId, newStatus, error)`: writes the status
row; sets `lastError` when an error is given, clears it only when the new
status is `CONNECTED`, otherwise leaves it unchanged. -/
def updateInstanceStatus (s : Inst) (newStatus : InstanceStatus)
    (err : Option String) : Inst :=
  let s1 := { s with dbStatus := newStatus }
  match err with
  | some e => { s1 with dbLastError := some e }
  | none =>
      if newStatus = InstanceStatus.CONNECTED then
        { s1 with dbLastError := none }
      else s1

/-- Result of `connectInstance`: the early return of the already-stored
socket, the creation of a fresh socket via `makeWASocket`, or the
`"not initialized"` throw when no configuration is registered. -/
inductive ConnectResult where
  | noop (sock : Nat)
  | opened (sock : Nat)
  | missingConfig
deriving DecidableEq, Repr

/-- The tail of `connectInstance` past the already-connected check: requires
a registered config, then stores a fresh socket, sets state `CONNECTING`,
resets `reconnectAttempts` and `qrAttempts` to 0 and persists `CONNECTING`. -/
def connectProceed (s : Inst) (freshSock : Nat) : ConnectResult × Inst :=
  if s.hasConfig then
    (ConnectResult.opened freshSock,
      updateInstanceStatus
        { s with
            socket := some freshSock
            connState := some InstanceStatus.CONNECTING
            reconnectAttempts := some 0
            qrAttempts := some 0 }
        InstanceStatus.CONNECTING none)
  else
    (ConnectResult.missingConfig, s)

/-- `connectInstance(instanceId)`: first deletes the `manualDisconnects`
entry; if a socket is stored and the connection state is `CONNECTED` or
`CONNECTING` it returns that socket unchanged; otherwise it proceeds to open
a fresh socket. -/
def connectInstance (s : Inst) (freshSock : Nat) : ConnectResult × Inst :=
  let s1 := { s with manualDisconnect := false }
  match s1.socket with
  | some sock =>
      if s1.connState = some InstanceStatus.CONNECTED ∨
          s1.connState = some InstanceStatus.CONNECTING then
        (ConnectResult.noop sock, s1)
      else connectProceed s1 freshSock
  | none => connectProceed s1 freshSock

/-- `forceDisconnect(instanceId, reason)`: ends and drops the socket, clears
the QR code and `qrAttempts`, stores the in-memory state
`"FORCE_DISCONNECTED"`, pins `reconnectAttempts` to 999 and persists status
`DISCONNECTED` with `reason` as the last error. -/
def forceDisconnect (s : Inst) (reason : String) : Inst :=
  updateInstanceStatus
    { s with
        socket := none
        qrCode := none
        connState := some InstanceStatus.FORCE_DISCONNECTED
        qrAttempts := none
        reconnectAttempts := some 999 }
    InstanceStatus.DISCONNECTED (some reason)

/-- `handleQRCode(instanceId, qr)`: ignored when force-disconnected;
otherwise sets and persists `QR_REQUIRED`, computes the incremented attempt
count, and if it exceeds `maxQRAttempts` force-disconnects with reason
`"Maximum QR attempts reached"` without presenting the code; otherwise
stores the incremented counter and the QR code with its attempt number. -/
def handleQRCode (s : Inst) (qr : String) : Inst :=
  if s.connState = some InstanceStatus.FORCE_DISCONNECTED then s
  else
    let s1 := updateInstanceStatus
      { s with connState := some InstanceStatus.QR_REQUIRED }
      InstanceStatus.QR_REQUIRED none
    let newAttempts := s1.qrAttempts.getD 0 + 1
    if newAttempts > maxQRAttempts then
      forceDisconnect s1 "Maximum QR attempts reached"
    else
      { s1 with
          qrAttempts := some newAttempts
          qrCode := some { qr := qr, attempt := newAttempts } }

/-- Decision taken by `attemptReconnect`. -/
inductive ReconnectAction where
  | skippedForce
  | errorCeiling
  | scheduled (delayMs : Nat)
deriving DecidableEq, Repr

/-- `attemptReconnect(instanceId)`: skips when the state is
`"FORCE_DISCONNECTED"` or the attempt counter is pinned (≥ 900); persists a
terminal `ERROR` with the fixed message when the counter has reached
`maxReconnectAttempts`; otherwise schedules a timer after
`reconnectDelay * 2 ^ attempts` without touching any state. -/
def attemptReconnect (s : Inst) : ReconnectAction × Inst :=
  let attempts := s.reconnectAttempts.getD 0
  if s.connState = some InstanceStatus.FORCE_DISCONNECTED ∨ attempts ≥ 900 then
    (ReconnectAction.skippedForce, s)
  else if attempts ≥ maxReconnectAttempts then
    (ReconnectAction.errorCeiling,
      updateInstanceStatus s InstanceStatus.ERROR
        (some "Max reconnect attempts reached"))
  else
    (ReconnectAction.scheduled (reconnectDelay * 2 ^ attempts), s)

/-- Body of the `setTimeout` callback scheduled by `attemptReconnect`:
re-checks for `"FORCE_DISCONNECTED"` and aborts, else stores
`attempts + 1` (the value captured at scheduling time) and calls
`connectInstance`.  Returns `none` when the stale timer aborted. -/
def reconnectTimerFire (s : Inst) (attempts freshSock : Nat) :
    Option ConnectResult × Inst :=
  if s.connState = some InstanceStatus.FORCE_DISCONNECTED then (none, s)
  else
    let s1 := { s with reconnectAttempts := some (attempts + 1) }
    let r := connectInstance s1 freshSock
    (some r.1, r.2)

/-- `lastDisconnect.error` as seen by `handleConnectionClose`: whether it is
a `Boom`, its HTTP status code, and its message. -/
structure DisconnectInfo where
  isBoom : Bool
  statusCode : Nat
  errorMessage : String
deriving DecidableEq, Repr

/-- Which branch `handleConnectionClose` took. -/
inductive CloseOutcome where
  | manualStop
  | qrCeilingStop
  | reconnecting (act : ReconnectAction)
  | loggedOut
deriving DecidableEq, Repr

/-- `handleConnectionClose(instanceId, lastDisconnect)`: computes
`shouldReconnect` (any close except a `Boom` with status `loggedOut`),
sets the in-memory state to `DISCONNECTED`; returns early for manual
disconnects; returns early recording a QR-ceiling message when the close is
a `Boom` `timedOut` and `qrAttempts` has reached the ceiling; otherwise
persists `DISCONNECTED` and either calls `attemptReconnect` or (on logout)
tears the instance down. -/
def handleConnectionClose (s : Inst) (ld : Option DisconnectInfo) :
    CloseOutcome × Inst :=
  let shouldReconnect : Bool :=
    match ld with
    | some d =>
        if d.isBoom then d.statusCode != disconnectReasonLoggedOut else true
    | none => true
  let s1 := { s with connState := some InstanceStatus.DISCONNECTED }
  if s1.manualDisconnect then
    (CloseOutcome.manualStop,
      updateInstanceStatus s1 InstanceStatus.DISCONNECTED none)
  else
    let qrA := s1.qrAttempts.getD 0
    let isQRTimeout : Bool :=
      match ld with
      | some d => d.isBoom && d.statusCode == disconnectReasonTimedOut
      | none => false
    if isQRTimeout && decide (qrA ≥ maxQRAttempts) then
      (CloseOutcome.qrCeilingStop,
        { updateInstanceStatus s1 InstanceStatus.DISCONNECTED
            (some "Maximum QR attempts (3) reached. Manual reconnection required.") with
          qrAttempts := none })
    else
      let s2 := updateInstanceStatus s1 InstanceStatus.DISCONNECTED none
      if shouldReconnect then
        let r := attemptReconnect s2
        (CloseOutcome.reconnecting r.1, r.2)
      else
        (CloseOutcome.loggedOut, s2)

/-- Background actions of the reconnection scheduler: a close-triggered
`attemptReconnect` check, or a previously scheduled timer firing with its
captured attempt count and a fresh socket handle. -/
inductive SchedEvent where
  | reconnectCheck
  | timerFire (attempts freshSock : Nat)
deriving DecidableEq, Repr

/-- Whether a fired timer opened a new protocol-client session. -/
def openedSession : Option ConnectResult → Bool
  | some (ConnectResult.opened _) => true
  | _ => false

/-- One scheduler event applied to the state; the `Bool` records whether a
new session was opened by it. -/
def schedStep (s : Inst) (e : SchedEvent) : Inst × Bool :=
  match e with
  | SchedEvent.reconnectCheck => ((attemptReconnect s).2, false)
  | SchedEvent.timerFire a f =>
      let r := reconnectTimerFire s a f
      (r.2, openedSession r.1)

/-- A sequence of scheduler events; the `Bool` is true iff any of them
opened a new session. -/
def schedRun (s : Inst) : List SchedEvent → Inst × Bool
  | [] => (s, false)
  | e :: es =>
      let r := schedStep s e
      let rest := schedRun r.1 es
      (rest.1, r.2 || rest.2)

/-!
## Webhook dispatch (`src/services/webhook.service.js`)

`deliverWebhook` builds the envelope
`{event, instance: {id, name}, data, timestamp}`, signs
`JSON.stringify(envelope)` with the subscription secret, posts it with
`axios` (which serializes the same object the same way), and on failure
retries itself with `retryCount + 1` while `retryCount < maxRetries`,
calling `updateDeliveryStats` once on success and once on final failure.

HMAC-SHA256 is kept abstract as a parameter
`hmac : String → String → String` (key, message ↦ hex digest): every claim
here is about which string is signed and where the digest is placed, not
about the hash itself.  The `data` payload is abstracted by its serialized
JSON text `dataJson`, and `new Date().toISOString()` of attempt `i` by
`ts i`.
-/

/-- `JSON.stringify` escaping for the string values the envelope embeds. -/
def jsonEscape (s : String) : String :=
  String.join (s.toList.map fun c =>
    if c = '"' then "\\\"" else if c = '\\' then "\\\\" else String.singleton c)

/-- A JSON string literal. -/
def jsonStr (s : String) : String := "\"" ++ jsonEscape s ++ "\""

/-- The webhook envelope built by `deliverWebhook`: field insertion order is
`event`, `instance` (`id`, `name`), `data`, `timestamp`, which is the order
`JSON.stringify` serializes them in. -/
structure Envelope where
  event : String
  instanceId : String
  instanceName : String
  /-- the `data` object, abstracted by its serialized JSON text. -/
  dataJson : String
  timestamp : String
deriving DecidableEq, Repr

/-- `JSON.stringify` of the envelope (also the body `axios` puts on the
wire, since it serializes the same object). -/
def renderEnvelope (e : Envelope) : String :=
  "\x7b" ++ jsonStr "event" ++ ":" ++ jsonStr e.event ++ "," ++
    jsonStr "instance" ++ ":" ++
    "\x7b" ++ jsonStr "id" ++ ":" ++ jsonStr e.instanceId ++ "," ++
    jsonStr "name" ++ ":" ++ jsonStr e.instanceName ++ "\x7d" ++ "," ++
    jsonStr "data" ++ ":" ++ e.dataJson ++ "," ++
    jsonStr "timestamp" ++ ":" ++ jsonStr e.timestamp ++ "\x7d"

/-- `createSignature(payload, secret)`: the HMAC-SHA256 hex digest, keyed
with `secret`, of `JSON.stringify(payload)`. -/
def createSignature (hmac : String → String → String) (payload : Envelope)
    (secret : String) : String :=
  hmac secret (renderEnvelope payload)

/-- The `webhookConfig` row (with its joined instance) as read by
`deliverWebhook`. -/
structure WebhookConfig where
  isActive : Bool
  /-- event types whose flag is truthy in the `events` object. -/
  events : List String
  secret : String
  url : String
  instanceId : String
  instanceName : String
  /-- tenant-configured custom headers (`webhookConfig.headers`). -/
  headers : List (String × String)
deriving DecidableEq, Repr

/-- `"User-Agent"` header value. -/
def webhookUserAgent : String := "WhatsApp-API-Webhook/1.0"

/-- One HTTP POST performed by `deliverWebhook`: target URL, envelope body,
the built-in headers and the custom headers merged over them with
`Object.assign`. -/
structure WebhookRequest where
  url : String
  body : Envelope
  baseHeaders : List (String × String)
  customHeaders : List (String × String)
deriving DecidableEq, Repr

/-- Final value of header `k` after
`Object.assign(headers, webhookConfig.headers)`: a custom header wins over
a built-in one with the same name. -/
def WebhookRequest.header (r : WebhookRequest) (k : String) : Option String :=
  match r.customHeaders.lookup k with
  | some v => some v
  | none => r.baseHeaders.lookup k

/-- The request `deliverWebhook` performs on one attempt with timestamp
`ts`. -/
def buildRequest (hmac : String → String → String) (cfg : WebhookConfig)
    (eventType dataJson ts : String) : WebhookRequest :=
  let payload : Envelope :=
    { event := eventType
      instanceId := cfg.instanceId
      instanceName := cfg.instanceName
      dataJson := dataJson
      timestamp := ts }
  let signature := createSignature hmac payload cfg.secret
  { url := cfg.url
    body := payload
    baseHeaders :=
      [("Content-Type", "application/json"),
       ("User-Agent", webhookUserAgent),
       ("X-Webhook-Signature", signature),
       ("X-Webhook-Event", eventType),
       ("X-Webhook-Instance", cfg.instanceId)]
    customHeaders := cfg.headers }

/-- `maxRetries = 3` in `deliverWebhook`. -/
def maxRetries : Nat := 3

/-- `retryDelays = [1000, 5000, 15000]`. -/
def retryDelays : List Nat := [1000, 5000, 15000]

/-- Observable outcome of one `deliverWebhook` call chain: every HTTP POST
performed (in order) and how often `updateDeliveryStats` incremented
`successfulDeliveries` resp. `failedDeliveries`. -/
structure DeliveryTrace where
  requests : List WebhookRequest
  succIncs : Nat
  failIncs : Nat
deriving DecidableEq, Repr

/-- The recursion of `deliverWebhook` from a given `retryCount`.
`http i` tells whether the POST of attempt `i` got a 2xx response.
`remaining` stands for `maxRetries - retryCount`, the number of retries the
guard `retryCount < maxRetries` still allows, making the recursion
structural. -/
def deliverAux (cfg : Option WebhookConfig) (hmac : String → String → String)
    (http : Nat → Bool) (eventType dataJson : String) (ts : Nat → String) :
    Nat → Nat → DeliveryTrace
  | retryCount, remaining =>
    match cfg with
    | none => { requests := [], succIncs := 0, failIncs := 0 }
    | some c =>
      if ¬ c.isActive then { requests := [], succIncs := 0, failIncs := 0 }
      else if ¬ c.events.contains eventType then
        { requests := [], succIncs := 0, failIncs := 0 }
      else
        let req := buildRequest hmac c eventType dataJson (ts retryCount)
        if http retryCount then
          { requests := [req], succIncs := 1, failIncs := 0 }
        else
          match remaining with
          | 0 => { requests := [req], succIncs := 0, failIncs := 1 }
          | r + 1 =>
              let rest :=
                deliverAux cfg hmac http eventType dataJson ts (retryCount + 1) r
              { requests := req :: rest.requests
                succIncs := rest.succIncs
                failIncs := rest.failIncs }

/-- `deliverWebhook(instanceId, eventType, payload)` with the default
`retryCount = 0` (so `maxRetries` retries remain available). -/
def deliverWebhook (cfg : Option WebhookConfig)
    (hmac : String → String → String) (http : Nat → Bool)
    (eventType dataJson : String) (ts : Nat → String) : DeliveryTrace :=
  deliverAux cfg hmac http eventType dataJson ts 0 maxRetries

/-!
## Rate-limit middleware (`apiKeyRateLimit`, `subscriptionRateLimit`,
`recordApiCall`)

The `usage_records` table is modelled as a list of rows; only the fields
the middleware touches are kept.  The rows are unique per
(`recordType`, `period`) for the one credential/tenant under consideration
(the Prisma unique key also includes `subscriptionId` and `instanceId`,
constant here).  A possibly-failing store read is an
`Except String (List UsageRecord)`; the middleware's `try/catch` turns a
failed read into a plain `next()`.
-/

/-- A `usage_records` row: `recordDate` (creation timestamp, ms) is set by
`@default(now())` when the row is created and never updated afterwards. -/
structure UsageRecord where
  recordType : String
  count : Nat
  period : String
  recordDate : Nat
deriving DecidableEq, Repr

/-- The `prisma.usageRecord.count` query of `apiKeyRateLimit`: the NUMBER OF
ROWS with `recordType = "API_CALLS"` and `recordDate ≥ windowStart`. -/
def countApiCalls (recs : List UsageRecord) (windowStart : Nat) : Nat :=
  (recs.filter fun r =>
    r.recordType == "API_CALLS" && decide (windowStart ≤ r.recordDate)).length

/-- `recordApiCall(apiKey, req)`: upserts the `"API_CALLS"` row of period
`today` — increments its `count` if it exists (leaving `recordDate` at its
creation value), otherwise creates it with `count = 1` and
`recordDate = now`.  (The parallel `messageStat` upsert has no effect on
rate limiting and is omitted.) -/
def recordApiCall (recs : List UsageRecord) (today : String) (nowMs : Nat) :
    List UsageRecord :=
  if recs.any (fun r => r.recordType == "API_CALLS" && r.period == today) then
    recs.map fun r =>
      if r.recordType == "API_CALLS" && r.period == today then
        { r with count := r.count + 1 }
      else r
  else
    recs ++ [{ recordType := "API_CALLS", count := 1, period := today,
               recordDate := nowMs }]

/-- What a gating middleware did with the request. -/
inductive GateOutcome where
  /-- responded 429 with the error payload's `limit`, `used` and `resetAt`
  (ms since epoch). -/
  | rejected (limit used resetAtMs : Nat)
  /-- called `next()`; `recorded` tells whether the action was counted. -/
  | proceeded (recorded : Bool)
deriving DecidableEq, Repr

/-- One hour in milliseconds. -/
def hourMs : Nat := 3600000

/-- `apiKeyRateLimit(req, res, next)` for an authenticated API key: reads
the usage rows (a read that may throw — then the catch block calls `next()`
with nothing recorded), counts rows in the one-hour window, rejects with
`limit`, `used = callCount` and `resetAt = now + 1h` when
`callCount ≥ rateLimit`, else records the call and proceeds. -/
def apiKeyRateLimit (db : Except String (List UsageRecord))
    (rateLimit nowMs : Nat) (today : String) :
    GateOutcome × Except String (List UsageRecord) :=
  match db with
  | Except.error e => (GateOutcome.proceeded false, Except.error e)
  | Except.ok recs =>
      let callCount := countApiCalls recs (nowMs - hourMs)
      if callCount ≥ rateLimit then
        (GateOutcome.rejected rateLimit callCount (nowMs + hourMs),
          Except.ok recs)
      else
        (GateOutcome.proceeded true, Except.ok (recordApiCall recs today nowMs))

/-- The `prisma.usageRecord.aggregate` sum of `subscriptionRateLimit`: the
SUM of `count` over rows with `recordType = "MESSAGES_SENT"` and
`recordDate ≥ monthStart`. -/
def sumMessagesSent (recs : List UsageRecord) (monthStart : Nat) : Nat :=
  ((recs.filter fun r =>
      r.recordType == "MESSAGES_SENT" && decide (monthStart ≤ r.recordDate)).map
    fun r => r.count).sum

/-- `subscriptionRateLimit(req, res, next)` for a tenant with monthly
message limit `monthlyMessages`: sums this month's sent messages (a read
that may throw — then the catch block calls `next()`), rejects when the sum
has reached the limit, else proceeds.  This middleware never records
anything itself. -/
def subscriptionRateLimit (db : Except String (List UsageRecord))
    (monthlyMessages monthStart monthResetMs : Nat) : GateOutcome :=
  match db with
  | Except.error _ => GateOutcome.proceeded false
  | Except.ok recs =>
      let totalMessages := sumMessagesSent recs monthStart
      if totalMessages ≥ monthlyMessages then
        GateOutcome.rejected monthlyMessages totalMessages monthResetMs
      else
        GateOutcome.proceeded false

/-!
## Phone formatting and message send (`formatPhoneToJID`,
`sendTextMessage`)

Phone numbers are modelled as `List Char`.  `phone.replace(/\D/g, "")` is
the filter keeping decimal digits, and `cleanPhone.startsWith("62")` is
`cleanPhone.take 2 = ['6', '2']` (a two-character prefix test).
-/

/-- `formatPhoneToJID(phone)`: strip non-digits, prepend `"62"` unless the
digits already start with it, append `"@s.whatsapp.net"`. -/
def formatPhoneToJID (phone : List Char) : List Char :=
  let cleanPhone := phone.filter Char.isDigit
  let formattedPhone :=
    if cleanPhone.take 2 = ['6', '2'] then cleanPhone
    else ['6', '2'] ++ cleanPhone
  formattedPhone ++ "@s.whatsapp.net".toList

/-- The slice of a Baileys socket that `sendTextMessage` consults:
`socket.user` is set once the session is paired. -/
structure WASocket where
  user : Option String
deriving DecidableEq, Repr

/-- `sendTextMessage(instanceId, to, message)`: throws when no socket is
registered or it has no user; otherwise sends to
`formatPhoneToJID(to)` — modelled as returning the JID/text pair handed to
`socket.sendMessage`. -/
def sendTextMessage (socket : Option WASocket) (recipient msgText : List Char) :
    Except String (List Char × List Char) :=
  match socket with
  | none => Except.error "Instance not found"
  | some sock =>
      match sock.user with
      | none => Except.error "Instance is not connected"
      | some _ => Except.ok (formatPhoneToJID recipient, msgText)

/-!
## Claims
-/

/-- A live instance presenting a QR code: the state reached from
`createInstance` + `connectInstance` (socket handle 1) after one
`handleQRCode` event. -/
def qrLiveInst : Inst :=
  { socket := some 1
    connState := some InstanceStatus.QR_REQUIRED
    reconnectAttempts := some 0
    qrAttempts := some 1
    manualDisconnect := false
    hasConfig := true
    qrCode := some { qr := "qr1", attempt := 1 }
    dbStatus := InstanceStatus.QR_REQUIRED
    dbLastError := none }

/-- Claim C1, counterexample: on an instance whose live session is in state
`QR_REQUIRED`, a second `connectInstance` is NOT a no-op — it opens a new
protocol-client session (handle 2) and replaces the registry entry, instead
of returning the existing handle 1. -/
theorem connect_on_qr_required_opens_new_session :
    (connectInstance qrLiveInst 2).1 = ConnectResult.opened 2 ∧
    (connectInstance qrLiveInst 2).1 ≠ ConnectResult.noop 1 ∧
    (connectInstance qrLiveInst 2).2.socket = some 2 := by
  decide

/-- Claim C1 (amended): a second `connectInstance` on an instance holding a
live socket is a no-op returning that socket — leaving all state except the
cleared manual-disconnect flag untouched and opening no new session — only
when the connection state is `CONNECTED` or `CONNECTING`; `QR_REQUIRED`
does not reject the second connect (see the counterexample), though the
registry still maps the id to a single handle because the entry is
replaced. -/
theorem connectInstance_noop_on_connected_or_connecting
    (s : Inst) (sock freshSock : Nat) (hs : s.socket = some sock)
    (hc : s.connState = some InstanceStatus.CONNECTED ∨
      s.connState = some InstanceStatus.CONNECTING) :
    connectInstance s freshSock =
      (ConnectResult.noop sock, { s with manualDisconnect := false }) := by
  rcases hc with h | h <;> simp [connectInstance, hs, h]

/-- An instance with a live `CONNECTED` session. -/
def connectedInst : Inst :=
  { socket := some 3
    connState := some InstanceStatus.CONNECTED
    reconnectAttempts := some 0
    qrAttempts := some 0
    manualDisconnect := true
    hasConfig := true
    qrCode := none
    dbStatus := InstanceStatus.CONNECTED
    dbLastError := none }

/-- Witness for the amended C1 theorem at a concrete connected instance. -/
theorem connectInstance_noop_witness :
    connectInstance connectedInst 7 =
      (ConnectResult.noop 3, { connectedInst with manualDisconnect := false }) :=
  connectInstance_noop_on_connected_or_connecting connectedInst 3 7 rfl (Or.inl rfl)

/-- Claim C8: after `forceDisconnect`, a close-triggered `attemptReconnect`
skips without scheduling or changing anything, and any sequence of
scheduler events (reconnect checks and stale timers firing) leaves the
state exactly as `forceDisconnect` left it and opens no session — so
nothing reconnects until an explicit `connect`/`restart`. -/
theorem forceDisconnect_suppresses_scheduler (s : Inst) (reason : String)
    (evs : List SchedEvent) :
    attemptReconnect (forceDisconnect s reason) =
      (ReconnectAction.skippedForce, forceDisconnect s reason) ∧
    schedRun (forceDisconnect s reason) evs = (forceDisconnect s reason, false) := by
  have hconn : (forceDisconnect s reason).connState =
      some InstanceStatus.FORCE_DISCONNECTED := rfl
  have hrec : attemptReconnect (forceDisconnect s reason) =
      (ReconnectAction.skippedForce, forceDisconnect s reason) := by
    simp [attemptReconnect, hconn]
  have hstep : ∀ e, schedStep (forceDisconnect s reason) e =
      (forceDisconnect s reason, false) := by
    intro e
    cases e with
    | reconnectCheck => simp [schedStep, hrec]
    | timerFire a f => simp [schedStep, reconnectTimerFire, hconn, openedSession]
  refine ⟨hrec, ?_⟩
  induction evs with
  | nil => rfl
  | cons e es ih => simp [schedRun, hstep, ih]

/-- Claim C9: when the usage-store read throws, both `apiKeyRateLimit` and
`subscriptionRateLimit` land in their catch block and call `next()`: the
action proceeds, is not rejected, and nothing is recorded. -/
theorem rate_limit_middleware_fails_open
    (e : String) (rateLimit nowMs : Nat) (today : String)
    (monthlyMessages monthStart monthResetMs : Nat) :
    apiKeyRateLimit (Except.error e) rateLimit nowMs today =
      (GateOutcome.proceeded false, Except.error e) ∧
    subscriptionRateLimit (Except.error e) monthlyMessages monthStart
      monthResetMs = GateOutcome.proceeded false :=
  ⟨rfl, rfl⟩

/-- Claim C10: `sendTextMessage` on a connected socket sends to
`formatPhoneToJID(to)`; the JID is built by stripping non-digit characters,
prepending `"62"` exactly when the digits do not already start with `"62"`,
and appending `"@s.whatsapp.net"` — so every recipient JID starts with
`"62"`. -/
theorem sendTextMessage_formats_recipient_to_62_jid
    (u : String) (phone msgText : List Char) :
    sendTextMessage (some { user := some u }) phone msgText =
      Except.ok (formatPhoneToJID phone, msgText) ∧
    formatPhoneToJID phone =
      (if (phone.filter Char.isDigit).take 2 = ['6', '2']
        then phone.filter Char.isDigit
        else ['6', '2'] ++ phone.filter Char.isDigit) ++ "@s.whatsapp.net".toList ∧
    ((phone.filter Char.isDigit).take 2 ≠ ['6', '2'] →
      formatPhoneToJID phone =
        ['6', '2'] ++ phone.filter Char.isDigit ++ "@s.whatsapp.net".toList) ∧
    (formatPhoneToJID phone).take 2 = ['6', '2'] := by
  refine ⟨rfl, rfl, ?_, ?_⟩
  · intro h
    simp [formatPhoneToJID, h]
  · by_cases h : (phone.filter Char.isDigit).take 2 = ['6', '2']
    · have hlen : 2 ≤ (phone.filter Char.isDigit).length := by
        have := congrArg List.length h
        simp [List.length_take] at this
        omega
      simp [formatPhoneToJID, h, List.take_append_eq_append_take,
        Nat.sub_eq_zero_of_le hlen]
    · simp [formatPhoneToJID, h]

/-- Witness for C10 at a concrete non-Indonesian number: `"0812"` has no
`"62"` country code and is rewritten to `"620812@s.whatsapp.net"`. -/
theorem sendTextMessage_62_jid_witness :
    sendTextMessage (some { user := some "user1" }) ['0', '8', '1', '2']
        ['h', 'i'] =
      Except.ok (formatPhoneToJID ['0', '8', '1', '2'], ['h', 'i']) ∧
    formatPhoneToJID ['0', '8', '1', '2'] =
      ['6', '2'] ++ ['0', '8', '1', '2'] ++ "@s.whatsapp.net".toList ∧
    (formatPhoneToJID ['0', '8', '1', '2']).take 2 = ['6', '2'] :=
  ⟨(sendTextMessage_formats_recipient_to_62_jid "user1" ['0', '8', '1', '2']
      ['h', 'i']).1,
   (sendTextMessage_formats_recipient_to_62_jid "user1" ['0', '8', '1', '2']
      ['h', 'i']).2.2.1 (by decide),
   (sendTextMessage_formats_recipient_to_62_jid "user1" ['0', '8', '1', '2']
      ['h', 'i']).2.2.2⟩

/-- The state right after a fresh explicit `connectInstance` (socket 1,
both counters reset to 0, state persisted as `CONNECTING`). -/
def freshConnectInst : Inst :=
  { socket := some 1
    connState := some InstanceStatus.CONNECTING
    reconnectAttempts := some 0
    qrAttempts := some 0
    manualDisconnect := false
    hasConfig := true
    qrCode := none
    dbStatus := InstanceStatus.CONNECTING
    dbLastError := none }

/-- Claim C5, counterexample: after exactly three consecutive QR events on
one fresh connect, the instance is still presenting the third code in state
`QR_REQUIRED` — it is not `FORCE_DISCONNECTED`, no pairing-ceiling error is
recorded, and the third code was presented, because `handleQRCode` only
force-disconnects when the incremented count EXCEEDS the ceiling of 3. -/
theorem three_qr_events_do_not_force_disconnect :
    (handleQRCode (handleQRCode (handleQRCode freshConnectInst "qr1") "qr2")
        "qr3").connState = some InstanceStatus.QR_REQUIRED ∧
    (handleQRCode (handleQRCode (handleQRCode freshConnectInst "qr1") "qr2")
        "qr3").connState ≠ some InstanceStatus.FORCE_DISCONNECTED ∧
    (handleQRCode (handleQRCode (handleQRCode freshConnectInst "qr1") "qr2")
        "qr3").dbLastError = none ∧
    (handleQRCode (handleQRCode (handleQRCode freshConnectInst "qr1") "qr2")
        "qr3").qrCode = some { qr := "qr3", attempt := 3 } := by
  decide

/-- Claim C5 (amended): the pairing ceiling fires on the event whose
incremented count exceeds 3, i.e. on the FOURTH consecutive QR event of one
connect attempt: the instance then ends in `FORCE_DISCONNECTED` with
`lastError = "Maximum QR attempts reached"`, the over-limit code discarded
(no stored QR) and the socket torn down. -/
theorem fourth_qr_event_force_disconnects
    (s : Inst) (q1 q2 q3 q4 : String) (hq : s.qrAttempts = some 0)
    (hc : s.connState = some InstanceStatus.CONNECTING) :
    (handleQRCode (handleQRCode (handleQRCode (handleQRCode s q1) q2) q3)
        q4).connState = some InstanceStatus.FORCE_DISCONNECTED ∧
    (handleQRCode (handleQRCode (handleQRCode (handleQRCode s q1) q2) q3)
        q4).dbLastError = some "Maximum QR attempts reached" ∧
    (handleQRCode (handleQRCode (handleQRCode (handleQRCode s q1) q2) q3)
        q4).qrCode = none ∧
    (handleQRCode (handleQRCode (handleQRCode (handleQRCode s q1) q2) q3)
        q4).socket = none ∧
    (handleQRCode (handleQRCode (handleQRCode (handleQRCode s q1) q2) q3)
        q4).reconnectAttempts = some 999 := by
  simp [handleQRCode, updateInstanceStatus, forceDisconnect, maxQRAttempts,
    hq, hc]

/-- Witness for the amended C5 theorem at the concrete fresh-connect
state. -/
theorem fourth_qr_event_witness :
    (handleQRCode (handleQRCode (handleQRCode (handleQRCode freshConnectInst
        "a") "b") "c") "d").connState =
      some InstanceStatus.FORCE_DISCONNECTED ∧
    (handleQRCode (handleQRCode (handleQRCode (handleQRCode freshConnectInst
        "a") "b") "c") "d").dbLastError = some "Maximum QR attempts reached" ∧
    (handleQRCode (handleQRCode (handleQRCode (handleQRCode freshConnectInst
        "a") "b") "c") "d").qrCode = none ∧
    (handleQRCode (handleQRCode (handleQRCode (handleQRCode freshConnectInst
        "a") "b") "c") "d").socket = none ∧
    (handleQRCode (handleQRCode (handleQRCode (handleQRCode freshConnectInst
        "a") "b") "c") "d").reconnectAttempts = some 999 :=
  fourth_qr_event_force_disconnects freshConnectInst "a" "b" "c" "d" rfl rfl

/-- An instance after a transient close: the socket object is still in the
`instances` map (the close handler never removes it), the state is
`DISCONNECTED`, and two QR codes had been presented on this connect
attempt. -/
def closedAfterTwoQr : Inst :=
  { socket := some 1
    connState := some InstanceStatus.DISCONNECTED
    reconnectAttempts := some 0
    qrAttempts := some 2
    manualDisconnect := false
    hasConfig := true
    qrCode := none
    dbStatus := InstanceStatus.DISCONNECTED
    dbLastError := none }

/-- Claim C6, counterexample: an automatic retry DOES reset the
pairing-attempt counter — the reconnect timer body calls `connectInstance`,
which sets `qrAttempts` back to 0: here the scheduler's fire takes the
counter from 2 to 0 while opening the retry session. -/
theorem scheduler_retry_resets_qr_attempts :
    closedAfterTwoQr.qrAttempts = some 2 ∧
    (reconnectTimerFire closedAfterTwoQr 0 2).1 =
      some (ConnectResult.opened 2) ∧
    (reconnectTimerFire closedAfterTwoQr 0 2).2.qrAttempts = some 0 := by
  decide

/-- Claim C6 (amended): the pairing-attempt counter is reset to zero by
EVERY `connectInstance` that proceeds to open a socket — and the
Reconnection Scheduler's timer invokes `connectInstance`, so an automatic
retry that fires on a disconnected, configured instance resets the counter
to 0 along with opening the new session. -/
theorem timer_fire_resets_qr_attempts
    (s : Inst) (a f : Nat)
    (hc : s.connState = some InstanceStatus.DISCONNECTED)
    (hcfg : s.hasConfig = true) :
    (reconnectTimerFire s a f).1 = some (ConnectResult.opened f) ∧
    (reconnectTimerFire s a f).2.qrAttempts = some 0 := by
  cases hsock : s.socket <;>
    simp [reconnectTimerFire, connectInstance, connectProceed,
      updateInstanceStatus, hc, hcfg, hsock]

/-- Witness for the amended C6 theorem at the concrete post-close state. -/
theorem timer_fire_resets_qr_attempts_witness :
    (reconnectTimerFire closedAfterTwoQr 0 2).1 =
      some (ConnectResult.opened 2) ∧
    (reconnectTimerFire closedAfterTwoQr 0 2).2.qrAttempts = some 0 :=
  timer_fire_resets_qr_attempts closedAfterTwoQr 0 2 rfl rfl

/-- An instance whose reconnect-attempt counter sits at the ceiling of 5
when another transient close arrives. -/
def atCeilingInst : Inst :=
  { socket := some 1
    connState := some InstanceStatus.RECONNECTING
    reconnectAttempts := some 5
    qrAttempts := some 0
    manualDisconnect := false
    hasConfig := true
    qrCode := none
    dbStatus := InstanceStatus.RECONNECTING
    dbLastError := none }

/-- The close that triggers the ceiling: a `Boom` 428 ("Connection
Failure") — not a logout, not a QR timeout. -/
def ceilingClose : Option DisconnectInfo :=
  some { isBoom := true, statusCode := 428, errorMessage := "Connection Failure" }

/-- Claim C7, counterexample: when the counter would exceed the ceiling,
the instance is marked `ERROR` but the recorded `lastError` is the fixed
string `"Max reconnect attempts reached"`, NOT the triggering error
(`"Connection Failure"`) — `attemptReconnect` never receives the close's
error at all. -/
theorem reconnect_ceiling_records_fixed_message :
    (handleConnectionClose atCeilingInst ceilingClose).1 =
      CloseOutcome.reconnecting ReconnectAction.errorCeiling ∧
    (handleConnectionClose atCeilingInst ceilingClose).2.dbStatus =
      InstanceStatus.ERROR ∧
    (handleConnectionClose atCeilingInst ceilingClose).2.dbLastError =
      some "Max reconnect attempts reached" ∧
    (handleConnectionClose atCeilingInst ceilingClose).2.dbLastError ≠
      some "Connection Failure" := by
  decide

/-- Claim C7 (amended): for a non-force-disconnected instance with attempt
counter `a < 900`: below the ceiling, `attemptReconnect` schedules a task
after `5000ms * 2 ^ a` and changes nothing (in particular the counter is
untouched at scheduling time); at or above the ceiling it transitions to
`ERROR` recording the fixed message `"Max reconnect attempts reached"`
(not the triggering error) and schedules nothing.  The fire of a scheduled
task stores `a + 1` (the captured value) and then calls `connectInstance` —
whose open path immediately resets the counter to 0, so only a fire whose
connect does not proceed leaves the incremented counter visible. -/
theorem attemptReconnect_backoff_and_ceiling
    (s : Inst) (a : Nat)
    (hf : s.connState ≠ some InstanceStatus.FORCE_DISCONNECTED)
    (ha : s.reconnectAttempts = some a) (h900 : a < 900) :
    (a < maxReconnectAttempts →
      attemptReconnect s =
        (ReconnectAction.scheduled (reconnectDelay * 2 ^ a), s)) ∧
    (maxReconnectAttempts ≤ a →
      attemptReconnect s =
        (ReconnectAction.errorCeiling,
          updateInstanceStatus s InstanceStatus.ERROR
            (some "Max reconnect attempts reached"))) ∧
    (∀ f, reconnectTimerFire s a f =
      (some (connectInstance
          { s with reconnectAttempts := some (a + 1) } f).1,
        (connectInstance { s with reconnectAttempts := some (a + 1) } f).2)) ∧
    (∀ f, (reconnectTimerFire s a f).1 = some (ConnectResult.opened f) →
      (reconnectTimerFire s a f).2.reconnectAttempts = some 0) := by
  refine ⟨?_, ?_, ?_, ?_⟩
  · intro hlt
    simp [attemptReconnect, ha, hf, Nat.not_le.mpr hlt,
      Nat.not_le.mpr (lt_trans hlt (by decide : maxReconnectAttempts < 900))]
  · intro hge
    simp [attemptReconnect, ha, hf, hge, Nat.not_le.mpr h900]
  · intro f
    simp [reconnectTimerFire, hf]
  · intro f
    simp only [reconnectTimerFire, hf, if_neg]
    cases hsock : s.socket with
    | none =>
        simp [connectInstance, connectProceed, updateInstanceStatus, hsock]
        split <;> simp
    | some k =>
        simp [connectInstance, hsock]
        split
        · simp
        · simp [connectProceed, updateInstanceStatus]
          split <;> simp

/-- Witness for the amended C7 theorem: at counter 2, a task is scheduled
after `5000 * 2^2 = 20000` ms with the state untouched. -/
theorem attemptReconnect_backoff_witness :
    attemptReconnect
        { socket := some 1
          connState := some InstanceStatus.DISCONNECTED
          reconnectAttempts := some 2
          qrAttempts := some 0
          manualDisconnect := false
          hasConfig := true
          qrCode := none
          dbStatus := InstanceStatus.DISCONNECTED
          dbLastError := none } =
      (ReconnectAction.scheduled 20000,
        { socket := some 1
          connState := some InstanceStatus.DISCONNECTED
          reconnectAttempts := some 2
          qrAttempts := some 0
          manualDisconnect := false
          hasConfig := true
          qrCode := none
          dbStatus := InstanceStatus.DISCONNECTED
          dbLastError := none }) :=
  (attemptReconnect_backoff_and_ceiling _ 2 (by decide) rfl (by decide)).1
    (by decide)

/-- Claim C2: with an active subscription for the event and an endpoint
that fails every attempt, `deliverWebhook` performs exactly 4 HTTP POSTs
(the initial attempt plus `maxRetries = 3` retries), after which
`failedDeliveries` is incremented exactly once and `successfulDeliveries`
not at all — and no further attempts exist in the trace. -/
theorem deliverWebhook_always_failing_makes_four_attempts
    (cfg : WebhookConfig) (hmac : String → String → String)
    (eventType dataJson : String) (ts : Nat → String)
    (hact : cfg.isActive = true)
    (hev : cfg.events.contains eventType = true) :
    (deliverWebhook (some cfg) hmac (fun _ => false) eventType dataJson
        ts).requests.length = 4 ∧
    (deliverWebhook (some cfg) hmac (fun _ => false) eventType dataJson
        ts).failIncs = 1 ∧
    (deliverWebhook (some cfg) hmac (fun _ => false) eventType dataJson
        ts).succIncs = 0 := by
  have hm : eventType ∈ cfg.events := by simpa using hev
  simp [deliverWebhook, deliverAux, maxRetries, hact, hm]

/-- A webhook subscription with no custom headers. -/
def plainCfg : WebhookConfig :=
  { isActive := true
    events := ["test"]
    secret := "s3cret"
    url := "https://example.com/hook"
    instanceId := "inst1"
    instanceName := "Main"
    headers := [] }

/-- Witness for C2 at a concrete subscription. -/
theorem deliverWebhook_four_attempts_witness :
    (deliverWebhook (some plainCfg) (fun k m => String.append k m)
        (fun _ => false) "test" "\x7b\x7d" (fun i => toString i)).requests.length
      = 4 ∧
    (deliverWebhook (some plainCfg) (fun k m => String.append k m)
        (fun _ => false) "test" "\x7b\x7d" (fun i => toString i)).failIncs = 1 ∧
    (deliverWebhook (some plainCfg) (fun k m => String.append k m)
        (fun _ => false) "test" "\x7b\x7d" (fun i => toString i)).succIncs = 0 :=
  deliverWebhook_always_failing_makes_four_attempts plainCfg
    (fun k m => String.append k m) "test" "\x7b\x7d" (fun i => toString i)
    rfl rfl

/-- Helper: the signature header of a built request is the HMAC, keyed with
the subscription secret, of the serialized envelope it posts — provided the
tenant's custom headers do not shadow `X-Webhook-Signature` when
`Object.assign` merges them over the built-in headers. -/
theorem buildRequest_signature_header (hmac : String → String → String)
    (cfg : WebhookConfig) (eventType dataJson ts : String)
    (h : cfg.headers.lookup "X-Webhook-Signature" = none) :
    (buildRequest hmac cfg eventType dataJson ts).header "X-Webhook-Signature" =
      some (hmac cfg.secret
        (renderEnvelope (buildRequest hmac cfg eventType dataJson ts).body)) := by
  simp [buildRequest, WebhookRequest.header, createSignature, h, List.lookup]

/-- Helper: every request `deliverAux` posts is `buildRequest` at some
attempt's timestamp. -/
theorem deliverAux_requests_mem (cfg : WebhookConfig)
    (hmac : String → String → String) (http : Nat → Bool)
    (eventType dataJson : String) (ts : Nat → String) :
    ∀ (remaining retryCount : Nat) (r : WebhookRequest),
      r ∈ (deliverAux (some cfg) hmac http eventType dataJson ts retryCount
        remaining).requests →
      ∃ i, r = buildRequest hmac cfg eventType dataJson (ts i) := by
  intro remaining
  induction remaining with
  | zero =>
      intro rc r hr
      rw [deliverAux] at hr
      split at hr
      · simp at hr
      · split at hr
        · simp at hr
        · split at hr
          · simp at hr
            exact ⟨rc, hr⟩
          · simp at hr
            exact ⟨rc, hr⟩
  | succ n ih =>
      intro rc r hr
      rw [deliverAux] at hr
      split at hr
      · simp at hr
      · split at hr
        · simp at hr
        · split at hr
          · simp at hr
            exact ⟨rc, hr⟩
          · simp at hr
            rcases hr with hr | hr
            · exact ⟨rc, hr⟩
            · exact ih (rc + 1) r hr

/-- Claim C3 (amended): on every POST performed by `deliverWebhook`, the
`X-Webhook-Signature` header is the HMAC-SHA256, keyed with the
subscription secret, of the exact serialized envelope posted as the body —
provided the tenant's custom headers do not themselves contain an
`X-Webhook-Signature` entry (which `Object.assign` would let shadow the
computed one, see the counterexample). -/
theorem deliverWebhook_signature_matches_delivered_body
    (cfg : WebhookConfig) (hmac : String → String → String)
    (http : Nat → Bool) (eventType dataJson : String) (ts : Nat → String)
    (h : cfg.headers.lookup "X-Webhook-Signature" = none) :
    ∀ r ∈ (deliverWebhook (some cfg) hmac http eventType dataJson ts).requests,
      r.header "X-Webhook-Signature" =
        some (hmac cfg.secret (renderEnvelope r.body)) := by
  intro r hr
  obtain ⟨i, rfl⟩ :=
    deliverAux_requests_mem cfg hmac http eventType dataJson ts maxRetries 0 r hr
  exact buildRequest_signature_header hmac cfg eventType dataJson (ts i) h

/-- Witness for the amended C3 theorem: a concrete successful delivery
whose one request carries the recomputable signature. -/
theorem deliverWebhook_signature_witness :
    (buildRequest (fun k m => String.append k m) plainCfg "test" "\x7b\x7d"
        "T0").header "X-Webhook-Signature" =
      some (String.append plainCfg.secret
        (renderEnvelope (buildRequest (fun k m => String.append k m) plainCfg
          "test" "\x7b\x7d" "T0").body)) :=
  deliverWebhook_signature_matches_delivered_body plainCfg
    (fun k m => String.append k m) (fun _ => true) "test" "\x7b\x7d"
    (fun _ => "T0") rfl
    (buildRequest (fun k m => String.append k m) plainCfg "test" "\x7b\x7d" "T0")
    (by decide)

/-- A webhook subscription whose tenant-configured custom headers contain
an `X-Webhook-Signature` entry. -/
def shadowCfg : WebhookConfig :=
  { isActive := true
    events := ["test"]
    secret := "s3cret"
    url := "https://example.com/hook"
    instanceId := "inst1"
    instanceName := "Main"
    headers := [("X-Webhook-Signature", "forged")] }

/-- A stand-in HMAC for the counterexample. -/
def shadowHmac : String → String → String :=
  fun secret msg =>
    String.append (String.append (String.append "hmac[" secret) "|")
      (String.append msg "]")

/-- The one request of the shadowed delivery. -/
def shadowReq : WebhookRequest :=
  buildRequest shadowHmac shadowCfg "test" "\x7b\x7d"
    "2026-10-12T00:00:00.000Z"

/-- Claim C3, counterexample: `Object.assign(headers, webhookConfig.headers)`
lets a tenant-configured custom header named `X-Webhook-Signature` replace
the computed signature — this delivery's header is the custom `"forged"`
value, which is not the HMAC of the delivered body, so recomputing the HMAC
does not reproduce the header. -/
theorem webhook_signature_header_shadowed :
    (deliverWebhook (some shadowCfg) shadowHmac (fun _ => true) "test"
        "\x7b\x7d" (fun _ => "2026-10-12T00:00:00.000Z")).requests =
      [shadowReq] ∧
    shadowReq.header "X-Webhook-Signature" = some "forged" ∧
    shadowReq.header "X-Webhook-Signature" ≠
      some (shadowHmac shadowCfg.secret (renderEnvelope shadowReq.body)) := by
  decide

/-- The period string of the day the C4 scenario happens on. -/
def day0 : String := "2026-10-12"

/-- The usage store after two gated actions were recorded earlier today (at
1000ms and 2000ms): `recordApiCall` upserts both into ONE `"API_CALLS"` row
of period `day0` with `count = 2`, whose `recordDate` stays at the row's
creation time. -/
def twoCallsStore : List UsageRecord :=
  recordApiCall (recordApiCall [] day0 1000) day0 2000

/-- Claim C4 (code bug): with a per-credential limit of 2 and 2 gated
actions already recorded within the current one-hour window, the 3rd action
is NOT rejected — `apiKeyRateLimit` counts usage-record ROWS (one per day)
rather than the recorded calls, so `callCount = 1 < 2` and the action is
allowed and recorded, where the claim requires rejection with `used = 2`,
`limit = 2`. -/
theorem apiKeyRateLimit_counts_rows_not_calls :
    twoCallsStore =
      [{ recordType := "API_CALLS", count := 2, period := day0,
         recordDate := 1000 }] ∧
    countApiCalls twoCallsStore (3600500 - hourMs) = 1 ∧
    apiKeyRateLimit (Except.ok twoCallsStore) 2 3600500 day0 =
      (GateOutcome.proceeded true,
        Except.ok (recordApiCall twoCallsStore day0 3600500)) :=
  ⟨by decide, by decide, rfl⟩

end WAPanel
